import Mathlib

/-! Verification development for a DJI-XT2 thermal-camera TIFF metadata pipeline.

A shallow embedding of the pipeline of `djixt2tiff.py`: GPS tag decoding
(`convert_gpstag`), XMP envelope matching and vendor tag extraction, per-page
tag normalization (`_page_tagconv_it`), property assembly with duplicate-key
detection and timestamp fixup (`pageprops`), and JSON serialization
(`props2json`).  Python machine floats are modelled as exact rationals, Python
dicts as insertion-ordered association lists, lazily produced generators as
eagerly materialized lists, and raised exceptions as an explicit error type in
an `Except` monad.  Library collaborators (the XML parser, `strptime`,
`str.format`, `json.dumps`) are modelled from their documented behaviour; the
repository code itself is translated statement by statement. -/

/-- Timestamp record modelling a Python naive `datetime.datetime` value. -/
structure PyDateTime where
  year : Nat
  month : Nat
  day : Nat
  hour : Nat
  minute : Nat
  second : Nat
  microsecond : Nat
deriving DecidableEq, Repr

/-- Coordinate triple; models the source class `WGS84Coords` (a `NamedTuple`
with fields `lat`, `lon`, `alt`, in this order).  Python floats are modelled
as exact rationals. -/
structure WGS84Coords where
  lat : ℚ
  lon : ℚ
  alt : ℚ
deriving DecidableEq, Repr

/-- Dynamic Python values that occur as tag values, dict entries and assembled
property values in this pipeline. -/
inductive PyVal where
  | str (s : String)
  | int (n : Int)
  | tup (ns : List Int)
  | bytes (s : String)
  | dt (d : PyDateTime)
  | coords (c : WGS84Coords)
deriving DecidableEq, Repr

/-- The shapes a raw TIFF tag value can have, per the dispatch in
`_page_tagconv_it`: a plain value, an enumerated symbol (with its `.name`
and numeric code), or a nested key/value group (a dict). -/
inductive TagVal where
  | val (v : PyVal)
  | enum (ename : String) (code : Int)
  | group (d : List (String × PyVal))
deriving DecidableEq, Repr

/-- Errors raised by the pipeline.  One constructor per raise site of the
source (plus the unguarded Python exceptions the source can hit): the
`RuntimeError`s of `convert_gpstag` are distinguished by their raise line,
`KeyError`/`TypeError`/`IndexError`/`ZeroDivisionError`/`AttributeError` model
the corresponding unguarded Python exceptions, and the `ValueError`s of the
library calls (`strptime`, `int`, `datetime.replace`) are explicit. -/
inductive Err where
  | keyError (k : String)
  | typeError
  | attributeError
  | indexError
  | zeroDivisionError
  | valueError
  | datumError (v : PyVal)
  | latShapeError (v : PyVal)
  | latRangeError (v : PyVal)
  | latRefError (v : PyVal)
  | lonShapeError (v : PyVal)
  | lonRangeError (v : PyVal)
  | lonRefError (v : PyVal)
  | altRefError (v : PyVal)
  | notDjiXt2 (mk md : TagVal)
  | xmpParseError (s : String)
  | xmlParseError
  | tagNameError (t : String)
  | dupKeyError (k : String) (old new : PyVal)
  | strptimeValueError (s : String)
  | intValueError (s : String)
  | microsecondValueError (m : Int)
  | jsonTypeError
deriving DecidableEq, Repr

deriving instance DecidableEq for Except

/-- A Python dict with string keys, as an insertion-ordered association list. -/
abbrev PyDict := List (String × PyVal)

/-- The per-page property map assembled by `pageprops`. -/
abbrev PropMap := List (String × PyVal)

/-- First-match association-list lookup; models `d[k]` / `k in d` on a
Python dict (keys are unique in an actual dict, so first match is the match). -/
def alookup {α : Type} : List (String × α) → String → Option α
  | [], _ => none
  | (k, v) :: rest, key => if k = key then some v else alookup rest key

/-- In-place update of an existing key (Python dict assignment keeps the
original insertion position); appends when the key is absent. -/
def aset {α : Type} : List (String × α) → String → α → List (String × α)
  | [], k, v => [(k, v)]
  | (k0, v0) :: rest, k, v =>
    if k0 = k then (k0, v) :: rest else (k0, v0) :: aset rest k v

/-- Dict subscript `d[k]`, raising `KeyError` when absent. -/
def pyGet (d : PyDict) (k : String) : Except Err PyVal :=
  match alookup d k with
  | some v => .ok v
  | none => .error (.keyError k)

/-- Python `==` between a dynamic value and a string literal (values of other
types compare unequal, without error). -/
def pyEqStr (v : PyVal) (s : String) : Bool :=
  match v with
  | .str t => t = s
  | _ => false

/-- Python `==` between a dynamic value and an int literal. -/
def pyEqInt (v : PyVal) (n : Int) : Bool :=
  match v with
  | .int m => m = n
  | _ => false

/-- Python `len`; `TypeError` on values without a length. -/
def pyLen : PyVal → Except Err Nat
  | .tup ns => .ok ns.length
  | .str s => .ok s.length
  | .bytes s => .ok s.length
  | _ => .error .typeError

/-- Python subscript `v[i]` for a nonnegative index; `IndexError` when out of
range, `TypeError` on non-subscriptable values. -/
def pyIndex : PyVal → Nat → Except Err PyVal
  | .tup ns, i =>
    match ns.get? i with
    | some n => .ok (.int n)
    | none => .error .indexError
  | .str s, i =>
    match s.data.get? i with
    | some c => .ok (.str (String.mk [c]))
    | none => .error .indexError
  | _, _ => .error .typeError

/-- Exact rational quotient of two integers, built with `mkRat` so that the
kernel can evaluate it (the ambient `Div ℚ` is irreducible); equals
`(a : ℚ) / (b : ℚ)`, see `intDiv_eq_div`. -/
def intDiv (a b : Int) : ℚ :=
  if b < 0 then mkRat (-a) (-b).toNat else mkRat a b.toNat

/-- Kernel-evaluable division of a rational by a natural number; equals
`q / (n : ℚ)`, see `qdivNat_eq_div`. -/
def qdivNat (q : ℚ) (n : Nat) : ℚ := mkRat q.num (q.den * n)

/-- Kernel-evaluable rational addition; equals `a + b`, see `qadd_eq_add`. -/
def qadd (a b : ℚ) : ℚ :=
  mkRat (a.num * (b.den : Int) + b.num * (a.den : Int)) (a.den * b.den)

/-- Python true division of two dynamic values (only int/int occurs here);
`ZeroDivisionError` on a zero denominator, exact rational result. -/
def pyDiv : PyVal → PyVal → Except Err ℚ
  | .int a, .int b =>
    if b = 0 then .error .zeroDivisionError else .ok (intDiv a b)
  | _, _ => .error .typeError

/-- The sexagesimal decode expression of `convert_gpstag` (source line 50):
`y[0]/y[1] + (y[2]/y[3])/60.0 + (y[4]/y[5])/3600.0`, with the indexing and
division errors of the left-to-right Python evaluation. -/
def sexagesimal (y : PyVal) : Except Err ℚ := do
  let a ← pyIndex y 0
  let b ← pyIndex y 1
  let q1 ← pyDiv a b
  let c ← pyIndex y 2
  let d ← pyIndex y 3
  let q2 ← pyDiv c d
  let e ← pyIndex y 4
  let f ← pyIndex y 5
  let q3 ← pyDiv e f
  .ok (qadd (qadd q1 (qdivNat q2 60)) (qdivNat q3 3600))

/-- The pure value of the sexagesimal decode on an already-validated 6-element
rational sequence (degrees, minutes, seconds as fraction pairs); equal to
`a/b + (c/d)/60 + (e/f)/3600` over ℚ, see `sexaVal_eq`. -/
def sexaVal (a b c d e f : Int) : ℚ :=
  qadd (qadd (intDiv a b) (qdivNat (intDiv c d) 60)) (qdivNat (intDiv e f) 3600)

/-- `convert_gpstag` (source lines 42-69), statement by statement: name guard,
datum check, latitude shape/decode/range/reference, longitude
shape/decode/range/reference, altitude reference check, altitude decode. -/
def convert_gpstag (name : String) (value : TagVal) : Except Err WGS84Coords := do
  if name ≠ "GPSTag" then .error .valueError else do
  let gps ← (match value with
    | .group d => .ok d
    | _ => .error .typeError : Except Err PyDict)
  let datum ← pyGet gps "GPSMapDatum"
  if ¬ pyEqStr datum "WGS-84" then .error (.datumError datum) else do
  let y ← pyGet gps "GPSLatitude"
  let ylen ← pyLen y
  if ylen ≠ 6 then .error (.latShapeError y) else do
  let lat0 ← sexagesimal y
  if lat0 > 90 ∨ lat0 < 0 then .error (.latRangeError y) else do
  let yref ← pyGet gps "GPSLatitudeRef"
  let lat ← (if pyEqStr yref "N" then .ok lat0
    else if pyEqStr yref "S" then .ok (-lat0)
    else .error (.latRefError yref) : Except Err ℚ)
  let x ← pyGet gps "GPSLongitude"
  let xlen ← pyLen x
  if xlen ≠ 6 then .error (.lonShapeError x) else do
  let lon0 ← sexagesimal x
  if lon0 > 180 ∨ lon0 < 0 then .error (.lonRangeError x) else do
  let xref ← pyGet gps "GPSLongitudeRef"
  let lon ← (if pyEqStr xref "E" then .ok lon0
    else if pyEqStr xref "W" then .ok (-lon0)
    else .error (.lonRefError xref) : Except Err ℚ)
  let aref ← pyGet gps "GPSAltitudeRef"
  if ¬ pyEqInt aref 0 then .error (.altRefError aref) else do
  let z ← pyGet gps "GPSAltitude"
  let za ← pyIndex z 0
  let zb ← pyIndex z 1
  let alt ← pyDiv za zb
  .ok { lat := lat, lon := lon, alt := alt }

/-- Builder for a GPS tag group dict of the documented shape (datum string,
rational sequences, reference strings, altitude-reference int). -/
def mkGpsDict (datum : String) (la : List Int) (laRef : String) (lo : List Int)
    (loRef : String) (altRef : Int) (al : List Int) : PyDict :=
  [("GPSLatitudeRef", .str laRef), ("GPSLatitude", .tup la),
   ("GPSLongitudeRef", .str loRef), ("GPSLongitude", .tup lo),
   ("GPSAltitudeRef", .int altRef), ("GPSAltitude", .tup al),
   ("GPSMapDatum", .str datum)]

/-- Python regex `\s` on the ASCII inputs at hand. -/
def isPySpace (c : Char) : Bool :=
  c == ' ' || c == '\t' || c == '\n' || c == '\r' || c == '\x0b' || c == '\x0c'

/-- Consume an exact literal prefix, or fail. -/
def dropLit : List Char → List Char → Option (List Char)
  | [], cs => some cs
  | _ :: _, [] => none
  | l :: ls, c :: cs => if c = l then dropLit ls cs else none

/-- Consume `\s+` (one or more whitespace characters). -/
def dropSpaces1 : List Char → Option (List Char)
  | [] => none
  | c :: cs => if isPySpace c then some (cs.dropWhile isPySpace) else none

/-- Consume a quoted attribute value, the regex group
`(?:'[^'>]*'|"[^">]*")` of `_xmp_re` (the character class excludes the
closing quote, so the greedy match is deterministic). -/
def dropQuotedAttr : List Char → Option (List Char)
  | q :: cs =>
    if q == '"' || q == '\x27' then
      let body := cs.takeWhile (fun c => !(c == q || c == '>'))
      match cs.drop body.length with
      | c :: rest => if c = q then some rest else none
      | [] => none
    else none
  | [] => none

/-- Consume the leading envelope of `_xmp_re` (source line 73): optional
whitespace, `<?xpacket`, whitespace, a quoted `begin` attribute, whitespace,
an `id` attribute whose value must be the exact hard-coded constant
`W5M0MpCehiHzreSzNTczkc9d` (with matching quote characters, the `\g<q>`
backreference), then `?>`. -/
def xmpHeaderDrop (cs : List Char) : Option (List Char) := do
  let cs := cs.dropWhile isPySpace
  let cs ← dropLit "<?xpacket".data cs
  let cs ← dropSpaces1 cs
  let cs ← dropLit "begin=".data cs
  let cs ← dropQuotedAttr cs
  let cs ← dropSpaces1 cs
  let cs ← dropLit "id=".data cs
  match cs with
  | q :: cs =>
    if q == '"' || q == '\x27' then do
      let cs ← dropLit "W5M0MpCehiHzreSzNTczkc9d".data cs
      match cs with
      | c :: cs => if c = q then dropLit "?>".data cs else none
      | [] => none
    else none
  | [] => none

/-- Decide whether a character list is exactly the trailing envelope of
`_xmp_re` (source line 75): `<?xpacket`, whitespace, a quoted `end`
attribute, `?>`, followed only by whitespace or NUL padding. -/
def xmpTailMatch (cs : List Char) : Bool :=
  match (do
    let cs ← dropLit "<?xpacket".data cs
    let cs ← dropSpaces1 cs
    let cs ← dropLit "end=".data cs
    let cs ← dropQuotedAttr cs
    dropLit "?>".data cs : Option (List Char)) with
  | some rest => rest.all (fun c => isPySpace c || c == '\x00')
  | none => false

/-- `_xmp_re.fullmatch` (source lines 72-75): returns the `content` capture
group on a match, `none` otherwise.  The single ambiguous point of the
pattern is the greedy DOTALL `(?P<content>.*)`, resolved here exactly as the
backtracking engine does: the longest content whose remainder matches the
trailing envelope. -/
def xmp_re_fullmatch (s : String) : Option String :=
  match xmpHeaderDrop s.data with
  | none => none
  | some rest =>
    (List.range (rest.length + 1)).reverse.findSome? fun i =>
      if xmpTailMatch (rest.drop i) then some (String.mk (rest.take i)) else none

/-- Regex `\w` (ASCII). -/
def isWordChar (c : Char) : Bool := c.isAlphanum || c == '_'

/-- `_tagname_re.fullmatch` (source line 76): the qualified tag must have
the shape `\A\{[^\}]+\}(?P<name>\w+)\Z`; returns the `name` group. -/
def tagname_re_fullmatch (t : String) : Option String :=
  match t.data with
  | c :: rest =>
    if c = '\x7b' then
      let nsp := rest.takeWhile (fun x => !(x == '\x7d'))
      match rest.drop nsp.length with
      | _ :: nm =>
        if nsp.isEmpty then none
        else if !nm.isEmpty && nm.all isWordChar then some (String.mk nm) else none
      | [] => none
    else none
  | [] => none

/-- XML document tree, the model of the value returned by
`xml.etree.ElementTree.fromstring`: an element with a qualified tag and a
list of children, where interleaved character data appears as `text` nodes
(this flattens ElementTree text/tail bookkeeping into explicit text children,
preserving document order). -/
inductive Xml where
  | text (s : String)
  | elem (tag : String) (children : List Xml)
deriving Repr

/-- Qualified tag of an element (`""` for a text node). -/
def Xml.tagOf : Xml → String
  | .text _ => ""
  | .elem t _ => t

/-- All proper descendant elements of the elements of a list, in depth-first
document order (each element before its own descendants). -/
def xmlDescList : List Xml → List Xml
  | [] => []
  | .text _ :: rest => xmlDescList rest
  | .elem t cs :: rest => .elem t cs :: (xmlDescList cs ++ xmlDescList rest)

/-- Character data of a forest in document order. -/
def xmlItertextList : List Xml → List String
  | [] => []
  | .text s :: rest => s :: xmlItertextList rest
  | .elem _ cs :: rest => xmlItertextList cs ++ xmlItertextList rest

/-- `Element.itertext()`: all character data of an element subtree in
document order. -/
def Xml.itertext : Xml → List String
  | .text s => [s]
  | .elem _ cs => xmlItertextList cs

/-- `x.findall('.//{ns}*')`: every proper descendant element whose qualified
tag lives in namespace `ns`, in depth-first document order. -/
def findallNs (ns : String) (x : Xml) : List Xml :=
  (match x with
   | .text _ => []
   | .elem _ cs => xmlDescList cs).filter
    (fun e => e.tagOf.startsWith ("\x7b" ++ ns ++ "\x7d"))

/-- The XMP expansion step of `_page_tagconv_it` (source lines 82-88):
envelope match (`_xmp_re.fullmatch`, failure raises the XMP parse error of
line 83), XML parse of the `content` group (`XmlEt.fromstring`, whose
malformed-XML `ParseError` propagates unguarded), selection of the elements
of the two vendor namespaces in order, and per-element tag-shape check and
text extraction (`' '.join(e.itertext()).strip()`).  `fromstring` is the
external XML parser, passed as a function returning `none` on malformed
input. -/
def extractVendorTags : List Xml → Except Err (List (String × PyVal))
  | [] => .ok []
  | e :: rest =>
    match tagname_re_fullmatch e.tagOf with
    | none => .error (.tagNameError e.tagOf)
    | some nm => do
      let r ← extractVendorTags rest
      .ok ((nm, .str (String.intercalate " " e.itertext).trim) :: r)

/-- See `extractVendorTags`; this is the whole XMP branch on the decoded
payload text. -/
def xmpExpand (fromstring : String → Option Xml) (s : String) :
    Except Err (List (String × PyVal)) :=
  match xmp_re_fullmatch s with
  | none => .error (.xmpParseError s)
  | some content =>
    match fromstring content with
    | none => .error .xmlParseError
    | some x =>
      extractVendorTags (findallNs "http://www.dji.com/drone-dji/1.0/" x ++
        findallNs "http://www.dji.com/FLIR/1.0/" x)

/-- Byte values of a nested tag group are decoded as ASCII text, all other
values pass through unchanged (source line 91). -/
def decodeGroupEntry : String × PyVal → String × PyVal
  | (k, .bytes s) => (k, .str s)
  | (k, v) => (k, v)

/-- Python `==` between a raw tag value and a string literal. -/
def tagValEqStr (t : TagVal) (s : String) : Bool :=
  match t with
  | .val v => pyEqStr v s
  | _ => false

/-- The per-tag dispatch of the loop body of `_page_tagconv_it` (source
lines 80-95): XMP expansion for the tag named `XMP` (whose value must be a
byte string, decoded as ASCII), one pair per entry for a nested group,
symbol name for an enumerated value, passthrough otherwise. -/
def tagYields (fromstring : String → Option Xml) :
    String × TagVal → Except Err (List (String × PyVal))
  | (name, v) =>
    if name = "XMP" then
      match v with
      | .val (.bytes s) => xmpExpand fromstring s
      | _ => .error .attributeError
    else
      match v with
      | .group d => .ok (d.map decodeGroupEntry)
      | .enum en _ => .ok [(name, .str en)]
      | .val w => .ok [(name, w)]

/-- Sequential concatenation of the per-tag yields, in tag order (the
generator materialized as a list). -/
def tagsYields (fromstring : String → Option Xml) :
    List (String × TagVal) → Except Err (List (String × PyVal))
  | [] => .ok []
  | t :: ts => do
    let y ← tagYields fromstring t
    let r ← tagsYields fromstring ts
    .ok (y ++ r)

/-- A TIFF page as the pipeline sees it: its ordered tag collection (tag
name to raw value); named lookup returns the first tag of that name. -/
structure TiffPage where
  tags : List (String × TagVal)

/-- `_page_tagconv_it` (source lines 77-97): make/model identification check,
then the per-tag loop, then — when a `GPSTag` tag group is present — one
final synthesized `Coords` pair holding the `convert_gpstag` result. -/
def page_tagconv_it (fromstring : String → Option Xml) (page : TiffPage) :
    Except Err (List (String × PyVal)) := do
  let mk ← (match alookup page.tags "Make" with
    | some t => .ok t
    | none => .error (.keyError "Make") : Except Err TagVal)
  let md ← (match alookup page.tags "Model" with
    | some t => .ok t
    | none => .error (.keyError "Model") : Except Err TagVal)
  if ¬ tagValEqStr mk "DJI" ∨ ¬ tagValEqStr md "XT2" then
    .error (.notDjiXt2 mk md) else do
  let base ← tagsYields fromstring page.tags
  match alookup page.tags "GPSTag" with
  | none => .ok base
  | some t => do
    let c ← convert_gpstag "GPSTag" t
    .ok (base ++ [("Coords", .coords c)])

/-- The assembly loop of `pageprops` (source lines 100-103): insert each
pair in order, raising the duplicate-key `KeyError` — which names the key,
the existing value and the incoming value — the moment a key already present
arrives. -/
def assemble : List (String × PyVal) → PropMap → Except Err PropMap
  | [], atts => .ok atts
  | (k, v) :: rest, atts =>
    match alookup atts k with
    | some old => .error (.dupKeyError k old v)
    | none => assemble rest (atts ++ [(k, v)])

/-- Numeric value of a digit string. -/
def digitsVal (ds : List Char) : Nat :=
  ds.foldl (fun a c => 10 * a + (c.toNat - 48)) 0

/-- Consume a run of digits as one field of `strptime`: nonempty, at most
`maxLen` digits, value within `[lo, hi]`. -/
def parseField (lo hi maxLen : Nat) (cs : List Char) : Option (Nat × List Char) :=
  let ds := cs.takeWhile Char.isDigit
  if ds.isEmpty || decide (maxLen < ds.length) then none
  else
    let n := digitsVal ds
    if lo ≤ n ∧ n ≤ hi then some (n, cs.drop ds.length) else none

/-- Consume one expected literal character. -/
def expectChar (c : Char) : List Char → Option (List Char)
  | x :: rest => if x = c then some rest else none
  | [] => none

/-- Day count of a month in the proleptic Gregorian calendar (as
`datetime` uses). -/
def daysInMonth (y m : Nat) : Nat :=
  if m = 2 then (if y % 4 = 0 ∧ (y % 100 ≠ 0 ∨ y % 400 = 0) then 29 else 28)
  else if m = 4 ∨ m = 6 ∨ m = 9 ∨ m = 11 then 30 else 31

/-- Model of `datetime.datetime.strptime(s, '%Y:%m:%d %H:%M:%S')` (source
line 110): a 4-digit year, then month, day, hour, minute, second fields of
one or two digits with the separators of the format, full-string match,
plus the calendar validation of the `datetime` constructor; `none` is the
`ValueError` raise. -/
def strptimeYmdHms (s : String) : Option PyDateTime := do
  let cs := s.data
  let yds := cs.takeWhile Char.isDigit
  if yds.length ≠ 4 then none else do
  let y := digitsVal yds
  let cs ← expectChar ':' (cs.drop 4)
  let (mo, cs) ← parseField 1 12 2 cs
  let cs ← expectChar ':' cs
  let (dy, cs) ← parseField 1 31 2 cs
  let cs ← expectChar ' ' cs
  let (hh, cs) ← parseField 0 23 2 cs
  let cs ← expectChar ':' cs
  let (mi, cs) ← parseField 0 59 2 cs
  let cs ← expectChar ':' cs
  let (ss, cs) ← parseField 0 59 2 cs
  if ¬ cs.isEmpty then none else
  if y < 1 then none else
  if daysInMonth y mo < dy then none else
  some ⟨y, mo, dy, hh, mi, ss, 0⟩

/-- Model of the Python `int()` constructor on a string: optional
surrounding whitespace, optional sign, a nonempty digit run. -/
def pyIntOfStr (s : String) : Option Int :=
  let t := ((s.data.dropWhile isPySpace).reverse.dropWhile isPySpace).reverse
  match t with
  | '-' :: ds =>
    if !ds.isEmpty && ds.all Char.isDigit then some (-(digitsVal ds : Int)) else none
  | '+' :: ds =>
    if !ds.isEmpty && ds.all Char.isDigit then some (digitsVal ds : Int) else none
  | ds =>
    if !ds.isEmpty && ds.all Char.isDigit then some (digitsVal ds : Int) else none

/-- `int(v)` on a dynamic value: parse for strings, identity for ints,
`TypeError` otherwise. -/
def pyInt : PyVal → Except Err Int
  | .str s =>
    match pyIntOfStr s with
    | some n => .ok n
    | none => .error (.intValueError s)
  | .int n => .ok n
  | _ => .error .typeError

/-- `dt.replace(microsecond = m)` (source line 113): the `datetime`
constructor revalidates the field, raising `ValueError` unless
`0 ≤ m ≤ 999999`; the microsecond field is replaced, every other field kept. -/
def dtReplaceMicrosecond (d : PyDateTime) (m : Int) : Except Err PyDateTime :=
  if 0 ≤ m ∧ m ≤ 999999 then .ok { d with microsecond := m.toNat }
  else .error (.microsecondValueError m)

/-- The date/time fixup of `pageprops` (source lines 109-114): when a
`DateTimeOriginal` key is present, parse it with the fixed format; when a
`SubsecTimeOriginal` key is also present, replace the microsecond field with
`int(value) * 10000` (one vendor sub-second unit is 10 milliseconds); store
the datetime object back under the same key. -/
def dtFixup (atts : PropMap) : Except Err PropMap :=
  match alookup atts "DateTimeOriginal" with
  | none => .ok atts
  | some v => do
    let s ← (match v with
      | .str s => .ok s
      | _ => .error .typeError : Except Err String)
    let dt0 ← (match strptimeYmdHms s with
      | some d => .ok d
      | none => .error (.strptimeValueError s) : Except Err PyDateTime)
    let dt ← (match alookup atts "SubsecTimeOriginal" with
      | none => .ok dt0
      | some sv => do
        let n ← pyInt sv
        dtReplaceMicrosecond dt0 (n * 10000) : Except Err PyDateTime)
    .ok (aset atts "DateTimeOriginal" (.dt dt))

/-- `pageprops` (source lines 99-115): assemble the normalized pair stream
into a map with duplicate detection, then apply the date/time fixup.  The
`idx` argument is unused because the page-number consistency check of the
source is commented out. -/
def pageprops (fromstring : String → Option Xml) (_idx : Nat) (page : TiffPage) :
    Except Err PropMap := do
  let pairs ← page_tagconv_it fromstring page
  let atts ← assemble pairs []
  dtFixup atts

/-- Round `n / d` (with `d > 0`) to the nearest integer, ties to even — the
rounding of Python fixed-point float formatting, applied here to the exact
rational value. -/
def roundHalfEvenInt (n d : Int) : Int :=
  let f := Int.fdiv n d
  let r2 := 2 * (n - f * d)
  if r2 < d then f else if d < r2 then f + 1
  else if f % 2 = 0 then f else f + 1

/-- Decimal digit character. -/
def decDigitChar (n : Nat) : Char := Char.ofNat (48 + n % 10)

/-- Exactly `d` decimal digits of `n` (the last `d`, zero-padded on the
left); `n < 10^d` at every use site. -/
def natDigitsFixed : Nat → Nat → List Char
  | 0, _ => []
  | d + 1, n => natDigitsFixed d (n / 10) ++ [decDigitChar n]

/-- Python `f"{q:.df}"` on the exact rational value of the float: sign,
integer part, and exactly `d` fraction digits after half-even rounding at
the `d`-th decimal. -/
def formatFixed (d : Nat) (q : ℚ) : String :=
  let an : Int := if q.num < 0 then -q.num else q.num
  let scaled := (roundHalfEvenInt (an * (10 : Int) ^ d) (q.den : Int)).toNat
  (if q.num < 0 then "-" else "") ++ toString (scaled / 10 ^ d) ++
    (if d = 0 then "" else "." ++ String.mk (natDigitsFixed d (scaled % 10 ^ d)))

/-- `WGS84Coords.__str__` (source lines 37-40):
`f"{lat:.9f},{lon:.9f},{alt:.2f}"` — latitude first, 9 decimal places for
latitude and longitude, 2 for altitude. -/
def WGS84Coords.str (c : WGS84Coords) : String :=
  formatFixed 9 c.lat ++ "," ++ formatFixed 9 c.lon ++ "," ++ formatFixed 2 c.alt

/-- The last `w` decimal digits of `n`, zero-padded (`%0wd`). -/
def padNum (w n : Nat) : String := String.mk (natDigitsFixed w n)

/-- `datetime.isoformat(sep=' ', timespec='milliseconds')` (source line
120): date, a single space, time, and the microsecond field truncated to
milliseconds, always with 3 fraction digits. -/
def isoformatMilliseconds (d : PyDateTime) : String :=
  padNum 4 d.year ++ "-" ++ padNum 2 d.month ++ "-" ++ padNum 2 d.day ++ " " ++
    padNum 2 d.hour ++ ":" ++ padNum 2 d.minute ++ ":" ++ padNum 2 d.second ++
    "." ++ padNum 3 (d.microsecond / 1000)

/-- `str(datetime)`: ISO form with a space separator; the microsecond
field is printed as 6 digits when nonzero and omitted when zero. -/
def pyDateTimeStr (d : PyDateTime) : String :=
  padNum 4 d.year ++ "-" ++ padNum 2 d.month ++ "-" ++ padNum 2 d.day ++ " " ++
    padNum 2 d.hour ++ ":" ++ padNum 2 d.minute ++ ":" ++ padNum 2 d.second ++
    (if d.microsecond = 0 then "" else "." ++ padNum 6 d.microsecond)

/-- Python `str()` on the dynamic values of this pipeline; for a
`WGS84Coords` this is the `__str__` of the source class. -/
def pyStr : PyVal → String
  | .str s => s
  | .int n => toString n
  | .coords c => WGS84Coords.str c
  | .dt d => pyDateTimeStr d
  | .tup [n] => "(" ++ toString n ++ ",)"
  | .tup ns => "(" ++ String.intercalate ", " (ns.map toString) ++ ")"
  | .bytes s => "b" ++ "\x27" ++ s ++ "\x27"

/-- Lower-case hexadecimal digit character. -/
def hexDigitChar (n : Nat) : Char :=
  if n % 16 < 10 then Char.ofNat (48 + n % 16) else Char.ofNat (87 + n % 16)

/-- JSON string escaping as `json.dumps` performs it on the ASCII strings at
hand: quote and backslash escaped, control characters by their short escapes
or `\u00XX`. -/
def jsonEscapeChar (c : Char) : String :=
  if c = '"' then "\\\""
  else if c = '\\' then "\\\\"
  else if c = '\n' then "\\n"
  else if c = '\t' then "\\t"
  else if c = '\r' then "\\r"
  else if c = '\x08' then "\\b"
  else if c = '\x0c' then "\\f"
  else if c.toNat < 32 then
    "\\u00" ++ String.mk [hexDigitChar (c.toNat / 16), hexDigitChar c.toNat]
  else String.mk [c]

/-- See `jsonEscapeChar`. -/
def jsonEscape (s : String) : String := String.join (s.data.map jsonEscapeChar)

/-- `json.dumps` rendering of one value at nesting level `level` with
`indent=2`: strings and ints by their JSON forms, int tuples as indented
arrays, anything else (datetime, coordinates, bytes) raises the `TypeError`
of unserializable objects. -/
def jsonVal (level : Nat) : PyVal → Except Err String
  | .str s => .ok ("\"" ++ jsonEscape s ++ "\"")
  | .int n => .ok (toString n)
  | .tup ns =>
    .ok (if ns.isEmpty then "[]" else
      "[\n" ++
        String.intercalate ",\n"
          (ns.map fun n =>
            String.mk (List.replicate (2 * (level + 1)) ' ') ++ toString n) ++
        "\n" ++ String.mk (List.replicate (2 * level) ' ') ++ "]")
  | _ => .error .jsonTypeError

/-- The `"key": value` members of the serialized object, in insertion
order, each indented two spaces. -/
def jsonItems : PropMap → Except Err (List String)
  | [] => .ok []
  | (k, v) :: rest => do
    let vs ← jsonVal 1 v
    let r ← jsonItems rest
    .ok (("  \"" ++ jsonEscape k ++ "\": " ++ vs) :: r)

/-- `json.dumps(atts2, indent=2)` (source line 122). -/
def jsonDumps (atts : PropMap) : Except Err String :=
  match atts with
  | [] => .ok "\x7b\x7d"
  | _ => do
    let items ← jsonItems atts
    .ok ("\x7b\n" ++ String.intercalate ",\n" items ++ "\n\x7d")

/-- The value-rewriting steps of `props2json` (source lines 118-121) on the
copied dict: a present `DateTimeOriginal` is replaced by its
`isoformat(sep=' ', timespec='milliseconds')` string (`AttributeError` when
the value is not a datetime), then a present `Coords` is replaced by its
`str()` form. -/
def props2jsonDict (atts : PropMap) : Except Err PropMap := do
  let atts2 := atts
  let atts2 ← (match alookup atts2 "DateTimeOriginal" with
    | none => .ok atts2
    | some v =>
      (match v with
       | .dt d => .ok (aset atts2 "DateTimeOriginal" (.str (isoformatMilliseconds d)))
       | _ => .error .attributeError) : Except Err PropMap)
  let atts2 := (match alookup atts2 "Coords" with
    | none => atts2
    | some v => aset atts2 "Coords" (.str (pyStr v)))
  .ok atts2

/-- `props2json` (source lines 117-122): rewrite the copy, serialize it. -/
def props2json (atts : PropMap) : Except Err String := do
  let atts2 ← props2jsonDict atts
  jsonDumps atts2

/-- Reference-level model of `props2json`, making the Python aliasing
explicit: the caller's dicts live in a store, the argument is the dict at
index `r`, `atts.copy()` allocates a fresh dict at a fresh index
(`heap.length`), and every write of the function hits that copy only.  The
result is the store after the call together with the returned JSON text. -/
def props2jsonHeap (heap : List PropMap) (r : Nat) :
    Except Err (List PropMap × String) := do
  let atts2 ← props2jsonDict (heap.getD r [])
  let out ← jsonDumps atts2
  .ok (heap ++ [atts2], out)

theorem ebind_ok {α β : Type} (a : α) (f : α → Except Err β) :
    (Except.ok a >>= f) = f a := rfl

theorem ebind_err {α β : Type} (e : Err) (f : α → Except Err β) :
    ((Except.error e : Except Err α) >>= f) = .error e := rfl

theorem except_bind_ok {α β : Type} {m : Except Err α} {f : α → Except Err β} {b : β}
    (h : (m >>= f) = .ok b) : ∃ a, m = .ok a ∧ f a = .ok b := by
  cases m with
  | ok a => exact ⟨a, rfl, h⟩
  | error e => simp [ebind_err] at h

theorem mkRat_eq_div (n : Int) (d : Nat) : mkRat n d = (n : ℚ) / (d : ℚ) := by
  rw [Rat.mkRat_eq_divInt, Rat.divInt_eq_div]
  push_cast
  ring

theorem intDiv_eq_div (a b : Int) : intDiv a b = (a : ℚ) / (b : ℚ) := by
  unfold intDiv
  split_ifs with h
  · have hb : (((-b).toNat : ℤ) : ℚ) = ((-b : ℤ) : ℚ) := by
      exact_mod_cast congrArg (fun z : ℤ => (z : ℚ))
        (Int.toNat_of_nonneg (by omega : (0 : ℤ) ≤ -b))
    rw [mkRat_eq_div]
    push_cast at hb ⊢
    rw [hb]
    exact neg_div_neg_eq (a : ℚ) (b : ℚ)
  · have hb : ((b.toNat : ℤ) : ℚ) = ((b : ℤ) : ℚ) := by
      exact_mod_cast congrArg (fun z : ℤ => (z : ℚ))
        (Int.toNat_of_nonneg (by omega : (0 : ℤ) ≤ b))
    rw [mkRat_eq_div]
    push_cast at hb ⊢
    rw [hb]

theorem qdivNat_eq_div (q : ℚ) (n : Nat) : qdivNat q n = q / (n : ℚ) := by
  unfold qdivNat
  rcases Nat.eq_zero_or_pos n with hn | hn
  · subst hn
    simp [mkRat_eq_div]
  · rw [mkRat_eq_div]
    conv_rhs => rw [← Rat.num_div_den q]
    rw [div_div]
    push_cast
    ring_nf

theorem qadd_eq_add (a b : ℚ) : qadd a b = a + b := by
  unfold qadd
  rw [mkRat_eq_div]
  have ha : ((a.den : ℚ)) ≠ 0 := by
    exact_mod_cast a.den_nz
  have hb : ((b.den : ℚ)) ≠ 0 := by
    exact_mod_cast b.den_nz
  conv_rhs => rw [← Rat.num_div_den a, ← Rat.num_div_den b]
  rw [div_add_div _ _ ha hb]
  push_cast
  ring_nf

theorem sexaVal_eq (a b c d e f : Int) :
    sexaVal a b c d e f =
      (a : ℚ) / (b : ℚ) + ((c : ℚ) / (d : ℚ)) / 60 + ((e : ℚ) / (f : ℚ)) / 3600 := by
  simp only [sexaVal, qadd_eq_add, qdivNat_eq_div, intDiv_eq_div]
  norm_num

theorem sexagesimal_six (a b c d e f : Int) (hb : b ≠ 0) (hd : d ≠ 0) (hf : f ≠ 0) :
    sexagesimal (.tup [a, b, c, d, e, f]) = .ok (sexaVal a b c d e f) := by
  simp [sexagesimal, pyIndex, pyDiv, hb, hd, hf, sexaVal, ebind_ok]

set_option maxHeartbeats 1600000 in
/-- C1: for every GPS tag group that passes datum, shape and range validation
(6-element rational sequences, nonzero denominators, decoded latitude in
[0, 90] and longitude in [0, 180]), `convert_gpstag` keeps the decoded
latitude magnitude (non-negative) under reference `"N"`, negates it under
`"S"`, and raises the invalid-reference error for any other latitude
reference; likewise `"E"`/`"W"` for longitude. -/
theorem convert_gpstag_reference_dispatch
    (a b c d e f a2 b2 c2 d2 e2 f2 : Int) (yr xr : String) (ar : Int) (al : List Int)
    (hb : b ≠ 0) (hd : d ≠ 0) (hf : f ≠ 0)
    (hb2 : b2 ≠ 0) (hd2 : d2 ≠ 0) (hf2 : f2 ≠ 0)
    (hlat0 : 0 ≤ sexaVal a b c d e f) (hlat90 : sexaVal a b c d e f ≤ 90)
    (hlon0 : 0 ≤ sexaVal a2 b2 c2 d2 e2 f2) (hlon180 : sexaVal a2 b2 c2 d2 e2 f2 ≤ 180) :
    (yr ≠ "N" → yr ≠ "S" →
      convert_gpstag "GPSTag"
        (.group (mkGpsDict "WGS-84" [a, b, c, d, e, f] yr [a2, b2, c2, d2, e2, f2] xr ar al)) =
        .error (.latRefError (.str yr))) ∧
    ((yr = "N" ∨ yr = "S") → xr ≠ "E" → xr ≠ "W" →
      convert_gpstag "GPSTag"
        (.group (mkGpsDict "WGS-84" [a, b, c, d, e, f] yr [a2, b2, c2, d2, e2, f2] xr ar al)) =
        .error (.lonRefError (.str xr))) ∧
    (∀ cc, convert_gpstag "GPSTag"
        (.group (mkGpsDict "WGS-84" [a, b, c, d, e, f] yr [a2, b2, c2, d2, e2, f2] xr ar al)) =
        .ok cc →
      (yr = "N" → cc.lat = sexaVal a b c d e f ∧ 0 ≤ cc.lat) ∧
      (yr = "S" → cc.lat = -sexaVal a b c d e f ∧ cc.lat ≤ 0) ∧
      (xr = "E" → cc.lon = sexaVal a2 b2 c2 d2 e2 f2 ∧ 0 ≤ cc.lon) ∧
      (xr = "W" → cc.lon = -sexaVal a2 b2 c2 d2 e2 f2 ∧ cc.lon ≤ 0)) := by
  have hrange1 : ¬ (sexaVal a b c d e f > 90 ∨ sexaVal a b c d e f < 0) := by
    push_neg
    exact ⟨hlat90, hlat0⟩
  have hrange2 : ¬ (sexaVal a2 b2 c2 d2 e2 f2 > 180 ∨ sexaVal a2 b2 c2 d2 e2 f2 < 0) := by
    push_neg
    exact ⟨hlon180, hlon0⟩
  refine ⟨?_, ?_, ?_⟩
  · intro hN hS
    simp [convert_gpstag, mkGpsDict, pyGet, alookup, pyLen, pyEqStr, pyEqInt,
          sexagesimal_six a b c d e f hb hd hf, ebind_ok, ebind_err, hrange1, hN, hS]
  · intro hNS hE hW
    rcases hNS with hN | hS
    · subst hN
      simp [convert_gpstag, mkGpsDict, pyGet, alookup, pyLen, pyEqStr, pyEqInt,
            sexagesimal_six a b c d e f hb hd hf,
            sexagesimal_six a2 b2 c2 d2 e2 f2 hb2 hd2 hf2,
            ebind_ok, ebind_err, hrange1, hrange2, hE, hW]
    · subst hS
      simp [convert_gpstag, mkGpsDict, pyGet, alookup, pyLen, pyEqStr, pyEqInt,
            sexagesimal_six a b c d e f hb hd hf,
            sexagesimal_six a2 b2 c2 d2 e2 f2 hb2 hd2 hf2,
            ebind_ok, ebind_err, hrange1, hrange2, hE, hW]
  · intro cc hok
    by_cases hyrN : yr = "N"
    · subst hyrN
      by_cases hxE : xr = "E"
      · subst hxE
        simp [convert_gpstag, mkGpsDict, pyGet, alookup, pyLen, pyEqStr, pyEqInt,
              sexagesimal_six a b c d e f hb hd hf,
              sexagesimal_six a2 b2 c2 d2 e2 f2 hb2 hd2 hf2,
              ebind_ok, ebind_err, hrange1, hrange2] at hok
        by_cases har : ar = 0
        · simp [har] at hok
          obtain ⟨za, hza, hok⟩ := except_bind_ok hok
          obtain ⟨zb, hzb, hok⟩ := except_bind_ok hok
          obtain ⟨alt, halt, hok⟩ := except_bind_ok hok
          cases Except.ok.inj hok
          simp [hlat0, hlon0]
        · simp [har] at hok
      · by_cases hxW : xr = "W"
        · subst hxW
          simp [convert_gpstag, mkGpsDict, pyGet, alookup, pyLen, pyEqStr, pyEqInt,
                sexagesimal_six a b c d e f hb hd hf,
                sexagesimal_six a2 b2 c2 d2 e2 f2 hb2 hd2 hf2,
                ebind_ok, ebind_err, hrange1, hrange2] at hok
          by_cases har : ar = 0
          · simp [har] at hok
            obtain ⟨za, hza, hok⟩ := except_bind_ok hok
            obtain ⟨zb, hzb, hok⟩ := except_bind_ok hok
            obtain ⟨alt, halt, hok⟩ := except_bind_ok hok
            cases Except.ok.inj hok
            simp [hlat0, hlon0, neg_nonpos]
          · simp [har] at hok
        · simp [convert_gpstag, mkGpsDict, pyGet, alookup, pyLen, pyEqStr, pyEqInt,
                sexagesimal_six a b c d e f hb hd hf,
                sexagesimal_six a2 b2 c2 d2 e2 f2 hb2 hd2 hf2,
                ebind_ok, ebind_err, hrange1, hrange2, hxE, hxW] at hok
    · by_cases hyrS : yr = "S"
      · subst hyrS
        by_cases hxE : xr = "E"
        · subst hxE
          simp [convert_gpstag, mkGpsDict, pyGet, alookup, pyLen, pyEqStr, pyEqInt,
                sexagesimal_six a b c d e f hb hd hf,
                sexagesimal_six a2 b2 c2 d2 e2 f2 hb2 hd2 hf2,
                ebind_ok, ebind_err, hrange1, hrange2] at hok
          by_cases har : ar = 0
          · simp [har] at hok
            obtain ⟨za, hza, hok⟩ := except_bind_ok hok
            obtain ⟨zb, hzb, hok⟩ := except_bind_ok hok
            obtain ⟨alt, halt, hok⟩ := except_bind_ok hok
            cases Except.ok.inj hok
            simp [hlat0, hlon0, neg_nonpos]
          · simp [har] at hok
        · by_cases hxW : xr = "W"
          · subst hxW
            simp [convert_gpstag, mkGpsDict, pyGet, alookup, pyLen, pyEqStr, pyEqInt,
                  sexagesimal_six a b c d e f hb hd hf,
                  sexagesimal_six a2 b2 c2 d2 e2 f2 hb2 hd2 hf2,
                  ebind_ok, ebind_err, hrange1, hrange2] at hok
            by_cases har : ar = 0
            · simp [har] at hok
              obtain ⟨za, hza, hok⟩ := except_bind_ok hok
              obtain ⟨zb, hzb, hok⟩ := except_bind_ok hok
              obtain ⟨alt, halt, hok⟩ := except_bind_ok hok
              cases Except.ok.inj hok
              simp [hlat0, hlon0, neg_nonpos]
            · simp [har] at hok
          · simp [convert_gpstag, mkGpsDict, pyGet, alookup, pyLen, pyEqStr, pyEqInt,
                  sexagesimal_six a b c d e f hb hd hf,
                  sexagesimal_six a2 b2 c2 d2 e2 f2 hb2 hd2 hf2,
                  ebind_ok, ebind_err, hrange1, hrange2, hxE, hxW] at hok
      · simp [convert_gpstag, mkGpsDict, pyGet, alookup, pyLen, pyEqStr, pyEqInt,
              sexagesimal_six a b c d e f hb hd hf, ebind_ok, ebind_err, hrange1,
              hyrN, hyrS] at hok

/-- Witness for C1 at a concrete southern/western coordinate. -/
theorem convert_gpstag_reference_dispatch_witness :
    WGS84Coords.lat ⟨mkRat (-105) 2, mkRat (-67) 5, mkRat 853 25⟩ = -sexaVal 52 1 30 1 0 1 ∧
    WGS84Coords.lat ⟨mkRat (-105) 2, mkRat (-67) 5, mkRat 853 25⟩ ≤ 0 := by
  have h := (convert_gpstag_reference_dispatch 52 1 30 1 0 1 13 1 24 1 0 1 "S" "W" 0 [3412, 100]
      (by decide) (by decide) (by decide) (by decide) (by decide) (by decide)
      (by decide) (by decide) (by decide) (by decide)).2.2
      ⟨mkRat (-105) 2, mkRat (-67) 5, mkRat 853 25⟩ (by decide)
  exact h.2.1 rfl

/-- C2 counterexample: a GPS tag group whose pre-sign decoded longitude
magnitude exceeds 180° (it is 200°) but whose latitude reference is the
invalid `"X"`: the claim predicts a range error for every reference
character, yet `convert_gpstag` raises the invalid-latitude-reference error,
because the latitude reference check runs before the longitude range check. -/
theorem convert_gpstag_range_check_counterexample :
    sexaVal 200 1 0 1 0 1 > 180 ∧
    convert_gpstag "GPSTag"
      (.group (mkGpsDict "WGS-84" [10, 1, 0, 1, 0, 1] "X" [200, 1, 0, 1, 0, 1] "E" 0 [100, 1])) =
      .error (.latRefError (.str "X")) :=
  ⟨by decide, by decide⟩

set_option maxHeartbeats 800000 in
/-- C2 (amended): each axis's range check runs before that axis's own
reference check.  For a datum/shape-valid group with nonzero latitude
denominators, a pre-sign latitude magnitude above 90° raises the latitude
range error whatever any reference character is (valid or not); and once
latitude passes its range and reference checks, a pre-sign longitude
magnitude above 180° raises the longitude range error whatever the
longitude reference character is. -/
theorem convert_gpstag_range_before_reference
    (a b c d e f a2 b2 c2 d2 e2 f2 : Int) (yr xr : String) (ar : Int) (al : List Int)
    (hb : b ≠ 0) (hd : d ≠ 0) (hf : f ≠ 0) :
    ((90 < sexaVal a b c d e f ∨ sexaVal a b c d e f < -90) →
      convert_gpstag "GPSTag"
        (.group (mkGpsDict "WGS-84" [a, b, c, d, e, f] yr [a2, b2, c2, d2, e2, f2] xr ar al)) =
        .error (.latRangeError (.tup [a, b, c, d, e, f]))) ∧
    (0 ≤ sexaVal a b c d e f → sexaVal a b c d e f ≤ 90 → (yr = "N" ∨ yr = "S") →
      b2 ≠ 0 → d2 ≠ 0 → f2 ≠ 0 →
      (180 < sexaVal a2 b2 c2 d2 e2 f2 ∨ sexaVal a2 b2 c2 d2 e2 f2 < -180) →
      convert_gpstag "GPSTag"
        (.group (mkGpsDict "WGS-84" [a, b, c, d, e, f] yr [a2, b2, c2, d2, e2, f2] xr ar al)) =
        .error (.lonRangeError (.tup [a2, b2, c2, d2, e2, f2]))) := by
  constructor
  · intro hmag
    have hc : sexaVal a b c d e f > 90 ∨ sexaVal a b c d e f < 0 := by
      rcases hmag with h | h
      · exact Or.inl h
      · exact Or.inr (by linarith)
    simp [convert_gpstag, mkGpsDict, pyGet, alookup, pyLen, pyEqStr, pyEqInt,
          sexagesimal_six a b c d e f hb hd hf, ebind_ok, ebind_err, hc]
  · intro hlat0 hlat90 hNS hb2 hd2 hf2 hmag
    have hrange1 : ¬ (sexaVal a b c d e f > 90 ∨ sexaVal a b c d e f < 0) := by
      push_neg
      exact ⟨hlat90, hlat0⟩
    have hc2 : sexaVal a2 b2 c2 d2 e2 f2 > 180 ∨ sexaVal a2 b2 c2 d2 e2 f2 < 0 := by
      rcases hmag with h | h
      · exact Or.inl h
      · exact Or.inr (by linarith)
    rcases hNS with hN | hS
    · subst hN
      simp [convert_gpstag, mkGpsDict, pyGet, alookup, pyLen, pyEqStr, pyEqInt,
            sexagesimal_six a b c d e f hb hd hf,
            sexagesimal_six a2 b2 c2 d2 e2 f2 hb2 hd2 hf2,
            ebind_ok, ebind_err, hrange1, hc2]
    · subst hS
      simp [convert_gpstag, mkGpsDict, pyGet, alookup, pyLen, pyEqStr, pyEqInt,
            sexagesimal_six a b c d e f hb hd hf,
            sexagesimal_six a2 b2 c2 d2 e2 f2 hb2 hd2 hf2,
            ebind_ok, ebind_err, hrange1, hc2]

/-- Witness for the amended C2: a latitude of 91° raises the latitude range
error under the invalid reference `"Q"`, and a longitude of 200° (with valid
latitude) raises the longitude range error under the invalid reference
`"Z"`. -/
theorem convert_gpstag_range_before_reference_witness :
    convert_gpstag "GPSTag"
      (.group (mkGpsDict "WGS-84" [91, 1, 0, 1, 0, 1] "Q" [20, 1, 0, 1, 0, 1] "R" 0 [5, 1])) =
      .error (.latRangeError (.tup [91, 1, 0, 1, 0, 1])) ∧
    convert_gpstag "GPSTag"
      (.group (mkGpsDict "WGS-84" [10, 1, 0, 1, 0, 1] "N" [200, 1, 0, 1, 0, 1] "Z" 0 [5, 1])) =
      .error (.lonRangeError (.tup [200, 1, 0, 1, 0, 1])) :=
  ⟨(convert_gpstag_range_before_reference 91 1 0 1 0 1 20 1 0 1 0 1 "Q" "R" 0 [5, 1]
      (by decide) (by decide) (by decide)).1 (by decide),
   (convert_gpstag_range_before_reference 10 1 0 1 0 1 200 1 0 1 0 1 "N" "Z" 0 [5, 1]
      (by decide) (by decide) (by decide)).2 (by decide) (by decide) (Or.inl rfl)
      (by decide) (by decide) (by decide) (by decide)⟩

/-- C10 counterexample: a GPS tag group that violates the claimed
precondition (its altitude sequence is empty, shorter than two elements),
yet `convert_gpstag` does not fail with an unguarded indexing or division
error: its altitude-reference code is 1, and the named
invalid-altitude-reference check fires first. -/
theorem convert_gpstag_altitude_counterexample :
    convert_gpstag "GPSTag"
      (.group (mkGpsDict "WGS-84" [10, 1, 0, 1, 0, 1] "N" [20, 1, 0, 1, 0, 1] "E" 1 [])) =
      .error (.altRefError (.int 1)) := by
  decide

set_option maxHeartbeats 1600000 in
/-- C10 (amended): `convert_gpstag` validates neither the altitude length
nor any denominator: success requires at least two altitude elements and
every evaluated denominator nonzero; and on an input that passes every
named validation but violates the altitude precondition, the decoder fails
with an unguarded indexing or division error (none of the named kinds). -/
theorem convert_gpstag_altitude_precondition
    (a b c d e f a2 b2 c2 d2 e2 f2 : Int) (yr xr : String) (ar : Int) (al : List Int) :
    (∀ cc, convert_gpstag "GPSTag"
        (.group (mkGpsDict "WGS-84" [a, b, c, d, e, f] yr [a2, b2, c2, d2, e2, f2] xr ar al)) =
        .ok cc →
      b ≠ 0 ∧ d ≠ 0 ∧ f ≠ 0 ∧ b2 ≠ 0 ∧ d2 ≠ 0 ∧ f2 ≠ 0 ∧
      2 ≤ al.length ∧ al.getD 1 0 ≠ 0) ∧
    (b ≠ 0 → d ≠ 0 → f ≠ 0 → b2 ≠ 0 → d2 ≠ 0 → f2 ≠ 0 →
      0 ≤ sexaVal a b c d e f → sexaVal a b c d e f ≤ 90 →
      0 ≤ sexaVal a2 b2 c2 d2 e2 f2 → sexaVal a2 b2 c2 d2 e2 f2 ≤ 180 →
      (yr = "N" ∨ yr = "S") → (xr = "E" ∨ xr = "W") → ar = 0 →
      (al.length < 2 ∨ al.getD 1 0 = 0) →
      convert_gpstag "GPSTag"
        (.group (mkGpsDict "WGS-84" [a, b, c, d, e, f] yr [a2, b2, c2, d2, e2, f2] xr ar al)) =
        .error .indexError ∨
      convert_gpstag "GPSTag"
        (.group (mkGpsDict "WGS-84" [a, b, c, d, e, f] yr [a2, b2, c2, d2, e2, f2] xr ar al)) =
        .error .zeroDivisionError) := by
  constructor
  · intro cc hok
    simp [convert_gpstag, mkGpsDict, pyGet, alookup, pyLen, pyEqStr, pyEqInt,
          sexagesimal, pyIndex, pyDiv, ebind_ok, ebind_err] at hok
    by_cases hb : b = 0
    · simp [hb, ebind_err] at hok
    by_cases hd : d = 0
    · simp [hb, hd, ebind_ok, ebind_err] at hok
    by_cases hf : f = 0
    · simp [hb, hd, hf, ebind_ok, ebind_err] at hok
    simp only [hb, hd, hf, if_false, ite_false, ebind_ok] at hok
    refine ⟨hb, hd, hf, ?_⟩
    by_cases hr1 : 90 < qadd (qadd (intDiv a b) (qdivNat (intDiv c d) 60))
          (qdivNat (intDiv e f) 3600) ∨
        qadd (qadd (intDiv a b) (qdivNat (intDiv c d) 60)) (qdivNat (intDiv e f) 3600) < 0
    · simp [hr1, ebind_err] at hok
    simp only [hr1, ite_false, if_false] at hok
    obtain ⟨lat, hlat, hok⟩ := except_bind_ok hok
    obtain ⟨q2a, hq2a, hok⟩ := except_bind_ok hok
    by_cases hb2 : b2 = 0
    · simp [hb2] at hq2a
    refine ⟨hb2, ?_⟩
    obtain ⟨q2b, hq2b, hok⟩ := except_bind_ok hok
    by_cases hd2 : d2 = 0
    · simp [hd2] at hq2b
    refine ⟨hd2, ?_⟩
    obtain ⟨q2c, hq2c, hok⟩ := except_bind_ok hok
    by_cases hf2 : f2 = 0
    · simp [hf2] at hq2c
    refine ⟨hf2, ?_⟩
    by_cases hr2 : 180 < qadd (qadd q2a (qdivNat q2b 60)) (qdivNat q2c 3600) ∨
        qadd (qadd q2a (qdivNat q2b 60)) (qdivNat q2c 3600) < 0
    · simp [hr2, ebind_err] at hok
    simp only [hr2, ite_false, if_false] at hok
    obtain ⟨lon, hlon, hok⟩ := except_bind_ok hok
    by_cases har : ar = 0
    swap
    · simp [har] at hok
    simp only [har, ite_true, if_true] at hok
    rcases al with _ | ⟨z0, al2⟩
    · simp [ebind_err] at hok
    rcases al2 with _ | ⟨z1, rest⟩
    · simp [ebind_ok, ebind_err] at hok
    simp only [List.getElem?_cons_zero, List.getElem?_cons_succ, ebind_ok] at hok
    obtain ⟨alt, halt, hok⟩ := except_bind_ok hok
    by_cases hz1 : z1 = 0
    · simp [hz1] at halt
    refine ⟨by simp, ?_⟩
    simpa [List.getD] using hz1
  · intro hb hd hf hb2 hd2 hf2 hlat0 hlat90 hlon0 hlon180 hyr hxr har hviol
    subst har
    have hrange1 : ¬ (sexaVal a b c d e f > 90 ∨ sexaVal a b c d e f < 0) := by
      push_neg
      exact ⟨hlat90, hlat0⟩
    have hrange2 : ¬ (sexaVal a2 b2 c2 d2 e2 f2 > 180 ∨ sexaVal a2 b2 c2 d2 e2 f2 < 0) := by
      push_neg
      exact ⟨hlon180, hlon0⟩
    rcases al with _ | ⟨z0, al2⟩
    · left
      rcases hyr with rfl | rfl <;> rcases hxr with rfl | rfl <;>
        simp [convert_gpstag, mkGpsDict, pyGet, alookup, pyLen, pyEqStr, pyEqInt,
              sexagesimal_six a b c d e f hb hd hf,
              sexagesimal_six a2 b2 c2 d2 e2 f2 hb2 hd2 hf2,
              pyIndex, pyDiv, ebind_ok, ebind_err, hrange1, hrange2]
    rcases al2 with _ | ⟨z1, rest⟩
    · left
      rcases hyr with rfl | rfl <;> rcases hxr with rfl | rfl <;>
        simp [convert_gpstag, mkGpsDict, pyGet, alookup, pyLen, pyEqStr, pyEqInt,
              sexagesimal_six a b c d e f hb hd hf,
              sexagesimal_six a2 b2 c2 d2 e2 f2 hb2 hd2 hf2,
              pyIndex, pyDiv, ebind_ok, ebind_err, hrange1, hrange2]
    · have hz1 : z1 = 0 := by
        rcases hviol with hlen | hgd
        · simp at hlen
          omega
        · simpa [List.getD] using hgd
      subst hz1
      right
      rcases hyr with rfl | rfl <;> rcases hxr with rfl | rfl <;>
        simp [convert_gpstag, mkGpsDict, pyGet, alookup, pyLen, pyEqStr, pyEqInt,
              sexagesimal_six a b c d e f hb hd hf,
              sexagesimal_six a2 b2 c2 d2 e2 f2 hb2 hd2 hf2,
              pyIndex, pyDiv, ebind_ok, ebind_err, hrange1, hrange2]

/-- Witness for the amended C10: a successful decode has a two-element
altitude sequence with nonzero denominator, and an empty altitude sequence
behind valid named checks gives the unguarded indexing error. -/
theorem convert_gpstag_altitude_precondition_witness :
    (2 ≤ ([3412, 100] : List Int).length ∧ ([3412, 100] : List Int).getD 1 0 ≠ 0) ∧
    (convert_gpstag "GPSTag"
      (.group (mkGpsDict "WGS-84" [10, 1, 0, 1, 0, 1] "N" [20, 1, 0, 1, 0, 1] "E" 0 [])) =
      .error .indexError ∨
     convert_gpstag "GPSTag"
      (.group (mkGpsDict "WGS-84" [10, 1, 0, 1, 0, 1] "N" [20, 1, 0, 1, 0, 1] "E" 0 [])) =
      .error .zeroDivisionError) := by
  constructor
  · have h := (convert_gpstag_altitude_precondition 52 1 30 1 0 1 13 1 24 1 0 1
        "N" "E" 0 [3412, 100]).1 ⟨mkRat 105 2, mkRat 67 5, mkRat 853 25⟩ (by decide)
    exact ⟨h.2.2.2.2.2.2.1, h.2.2.2.2.2.2.2⟩
  · exact (convert_gpstag_altitude_precondition 10 1 0 1 0 1 20 1 0 1 0 1
        "N" "E" 0 []).2 (by decide) (by decide) (by decide) (by decide) (by decide)
      (by decide) (by decide) (by decide) (by decide) (by decide)
      (Or.inl rfl) (Or.inl rfl) rfl (by decide)

theorem alookup_eq_none {α : Type} (l : List (String × α)) (k : String) :
    alookup l k = none ↔ k ∉ l.map Prod.fst := by
  induction l with
  | nil => simp [alookup]
  | cons hd tl ih =>
    obtain ⟨k0, v0⟩ := hd
    by_cases h : k0 = k
    · subst h
      simp [alookup]
    · simp [alookup, h, ih, Ne.symm h]

theorem assemble_skip_front (xs rest : List (String × PyVal)) (acc : PropMap)
    (h : (((acc ++ xs).map Prod.fst)).Nodup) :
    assemble (xs ++ rest) acc = assemble rest (acc ++ xs) := by
  induction xs generalizing acc with
  | nil => simp
  | cons hd tl ih =>
    obtain ⟨k, v⟩ := hd
    have hk : alookup acc k = none := by
      rw [alookup_eq_none]
      intro hmem
      simp only [List.map_append, List.map_cons] at h
      exact (List.disjoint_of_nodup_append h) hmem (by simp)
    have hstep : assemble (((k, v) :: tl) ++ rest) acc = assemble (tl ++ rest) (acc ++ [(k, v)]) := by
      simp [assemble, hk]
    rw [hstep, ih (acc ++ [(k, v)]) (by simpa using h)]
    simp

theorem assemble_ok_characterization (l : List (String × PyVal)) (acc m : PropMap)
    (h : assemble l acc = .ok m) :
    m = acc ++ l ∧ ((acc.map Prod.fst).Nodup → ((acc ++ l).map Prod.fst).Nodup) := by
  induction l generalizing acc with
  | nil =>
    simp [assemble] at h
    simp [h.symm]
  | cons hd tl ih =>
    obtain ⟨k, v⟩ := hd
    cases halk : alookup acc k with
    | some old => simp [assemble, halk] at h
    | none =>
      have hstep : assemble tl (acc ++ [(k, v)]) = .ok m := by
        simpa [assemble, halk] using h
      obtain ⟨hm, hnd⟩ := ih (acc ++ [(k, v)]) hstep
      constructor
      · simpa using hm
      · intro hacc
        have : ((acc ++ [(k, v)]).map Prod.fst).Nodup := by
          simp only [List.map_append, List.map_cons, List.map_nil]
          rw [List.nodup_append]
          refine ⟨hacc, by simp, ?_⟩
          intro x hx
          simp only [List.mem_cons, List.not_mem_nil, or_false]
          intro hxk
          exact (alookup_eq_none acc k).mp halk (hxk ▸ hx)
        simpa using hnd this

/-- C3: the property assembler of `pageprops` raises the duplicate-key error
naming the key and both conflicting values the moment the second pair for an
already-present key arrives — whatever comes later in the stream is never
reached — and a stream it accepts is stored exactly, every key unique, no
pair silently overwritten. -/
theorem pageprops_duplicate_key_eager
    (xs : List (String × PyVal)) (k : String) (v old : PyVal) (ys : List (String × PyVal))
    (hnodup : (xs.map Prod.fst).Nodup) (hold : alookup xs k = some old) :
    assemble (xs ++ (k, v) :: ys) [] = .error (.dupKeyError k old v) ∧
    (∀ (l : List (String × PyVal)) (m : PropMap), assemble l [] = .ok m →
      m = l ∧ (l.map Prod.fst).Nodup) := by
  constructor
  · rw [assemble_skip_front xs ((k, v) :: ys) [] (by simpa using hnodup)]
    simp [assemble, hold]
  · intro l m h
    obtain ⟨hm, hnd⟩ := assemble_ok_characterization l [] m h
    exact ⟨by simpa using hm, by simpa using hnd (by simp)⟩

/-- Witness for C3: the duplicate key `PageNumber` arriving a second time is
rejected with both values named, and a duplicate-free stream is stored
exactly. -/
theorem pageprops_duplicate_key_eager_witness :
    assemble ([("PageNumber", .int 0), ("Model", .str "XT2")] ++
        ("PageNumber", .int 7) :: [("Make", .str "DJI")]) [] =
      .error (.dupKeyError "PageNumber" (.int 0) (.int 7)) ∧
    (∀ (l : List (String × PyVal)) (m : PropMap), assemble l [] = .ok m →
      m = l ∧ (l.map Prod.fst).Nodup) :=
  pageprops_duplicate_key_eager [("PageNumber", .int 0), ("Model", .str "XT2")]
    "PageNumber" (.int 7) (.int 0) [("Make", .str "DJI")] (by decide) (by decide)

/-- C4: an XMP byte payload whose decoded text does not match the fixed
envelope pattern raises the envelope-mismatch error (no partial output); a
payload with the correct envelope whose inner content the XML parser
rejects raises the malformed-XML error instead.  Concretely, the envelope
with the exact hard-coded `id` constant matches (capturing the content
between the processing instructions), and changing one character of the
constant makes the match fail. -/
theorem xmp_envelope_errors (fromstring : String → Option Xml) (s : String) :
    (xmp_re_fullmatch s = none →
      xmpExpand fromstring s = .error (.xmpParseError s)) ∧
    (∀ content, xmp_re_fullmatch s = some content → fromstring content = none →
      xmpExpand fromstring s = .error .xmlParseError) ∧
    xmp_re_fullmatch
        "<?xpacket begin=\"\" id=\"W5M0MpCehiHzreSzNTczkc9d\"?>payload<?xpacket end=\"\"?>" =
      some "payload" ∧
    xmp_re_fullmatch
        "<?xpacket begin=\"\" id=\"W5M0MpCehiHzreSzNTczkc9e\"?>payload<?xpacket end=\"\"?>" =
      none := by
  refine ⟨?_, ?_, by decide, by decide⟩
  · intro h
    simp [xmpExpand, h]
  · intro content h hf
    simp [xmpExpand, h, hf]

/-- Witness for C4: a garbage payload gives the envelope-mismatch error; a
correct envelope whose content the XML parser rejects gives the
malformed-XML error. -/
theorem xmp_envelope_errors_witness :
    xmpExpand (fun _ => none) "garbage" = .error (.xmpParseError "garbage") ∧
    xmpExpand (fun _ => none)
        "<?xpacket begin=\"\" id=\"W5M0MpCehiHzreSzNTczkc9d\"?>payload<?xpacket end=\"\"?>" =
      .error .xmlParseError :=
  ⟨(xmp_envelope_errors (fun _ => none) "garbage").1 (by decide),
   (xmp_envelope_errors (fun _ => none)
      "<?xpacket begin=\"\" id=\"W5M0MpCehiHzreSzNTczkc9d\"?>payload<?xpacket end=\"\"?>").2.1
      "payload" (by decide) rfl⟩

theorem alookup_aset_self {α : Type} (l : List (String × α)) (k : String) (v : α) :
    alookup (aset l k v) k = some v := by
  induction l with
  | nil => simp [aset, alookup]
  | cons hd tl ih =>
    obtain ⟨k0, v0⟩ := hd
    by_cases h : k0 = k
    · subst h
      simp [aset, alookup]
    · simp [aset, alookup, h, ih]

/-- C5: on an assembled map whose `DateTimeOriginal` parses and whose
`SubsecTimeOriginal` is an in-range sub-second count `n`, the fixup of
`pageprops` stores the parsed timestamp with microsecond field
`n * 10000` (each vendor sub-second unit contributes 10 milliseconds at
microsecond precision) back under the same key; for the concrete values
`2022:05:01 12:00:00` and `50` the reconstructed timestamp has microsecond
component 500000. -/
theorem pageprops_subsecond_reconstruction
    (atts : PropMap) (s ss : String) (dt0 : PyDateTime) (n : Int)
    (h1 : alookup atts "DateTimeOriginal" = some (.str s))
    (h2 : strptimeYmdHms s = some dt0)
    (h3 : alookup atts "SubsecTimeOriginal" = some (.str ss))
    (h4 : pyIntOfStr ss = some n)
    (h5 : 0 ≤ n) (h6 : n ≤ 99) :
    dtFixup atts = .ok (aset atts "DateTimeOriginal"
      (.dt { dt0 with microsecond := (n * 10000).toNat })) ∧
    alookup (aset atts "DateTimeOriginal"
        (.dt { dt0 with microsecond := (n * 10000).toNat })) "DateTimeOriginal" =
      some (.dt { dt0 with microsecond := (n * 10000).toNat }) ∧
    (s = "2022:05:01 12:00:00" → ss = "50" →
      { dt0 with microsecond := (n * 10000).toNat } =
        (⟨2022, 5, 1, 12, 0, 0, 500000⟩ : PyDateTime)) := by
  have hrep : dtReplaceMicrosecond dt0 (n * 10000) =
      .ok { dt0 with microsecond := (n * 10000).toNat } := by
    rw [dtReplaceMicrosecond, if_pos]
    omega
  refine ⟨?_, alookup_aset_self _ _ _, ?_⟩
  · simp [dtFixup, h1, h2, h3, pyInt, h4, hrep, ebind_ok]
  · intro hs hss
    subst hs
    subst hss
    rw [show strptimeYmdHms "2022:05:01 12:00:00" =
        some (⟨2022, 5, 1, 12, 0, 0, 0⟩ : PyDateTime) from by decide] at h2
    rw [show pyIntOfStr "50" = some (50 : Int) from by decide] at h4
    cases h2
    cases h4
    rfl

/-- Witness for C5 on the two-entry concrete map. -/
theorem pageprops_subsecond_reconstruction_witness :
    dtFixup [("DateTimeOriginal", .str "2022:05:01 12:00:00"),
        ("SubsecTimeOriginal", .str "50")] =
      .ok (aset [("DateTimeOriginal", .str "2022:05:01 12:00:00"),
        ("SubsecTimeOriginal", .str "50")] "DateTimeOriginal"
        (.dt (⟨2022, 5, 1, 12, 0, 0, 500000⟩ : PyDateTime))) :=
  (pageprops_subsecond_reconstruction
    [("DateTimeOriginal", .str "2022:05:01 12:00:00"), ("SubsecTimeOriginal", .str "50")]
    "2022:05:01 12:00:00" "50" ⟨2022, 5, 1, 12, 0, 0, 0⟩ 50
    (by decide) (by decide) (by decide) (by decide) (by decide) (by decide)).1

/-- C8: the sub-second fixup replaces the microsecond field with
`int(SubsecTimeOriginal) * 10000` (keeping every other field of the parsed
timestamp); it succeeds exactly for sub-second values 0 through 99, and for
every value of 100 or more the computed microsecond value reaches 1000000,
which the `datetime` field validation rejects — `pageprops` fails instead
of carrying the overflow into the seconds. -/
theorem pageprops_subsecond_replacement_overflow
    (atts : PropMap) (s ss : String) (dt0 : PyDateTime) (n : Int)
    (h1 : alookup atts "DateTimeOriginal" = some (.str s))
    (h2 : strptimeYmdHms s = some dt0)
    (h3 : alookup atts "SubsecTimeOriginal" = some (.str ss))
    (h4 : pyIntOfStr ss = some n) :
    (100 ≤ n → dtFixup atts = .error (.microsecondValueError (n * 10000))) ∧
    (n < 0 → dtFixup atts = .error (.microsecondValueError (n * 10000))) ∧
    (0 ≤ n → n ≤ 99 →
      dtFixup atts = .ok (aset atts "DateTimeOriginal"
        (.dt ⟨dt0.year, dt0.month, dt0.day, dt0.hour, dt0.minute, dt0.second,
          (n * 10000).toNat⟩))) ∧
    (100 ≤ n → 1000000 ≤ n * 10000) := by
  refine ⟨?_, ?_, ?_, by omega⟩
  · intro hn
    have hrep : dtReplaceMicrosecond dt0 (n * 10000) =
        .error (.microsecondValueError (n * 10000)) := by
      rw [dtReplaceMicrosecond, if_neg]
      omega
    simp [dtFixup, h1, h2, h3, pyInt, h4, hrep, ebind_ok, ebind_err]
  · intro hn
    have hrep : dtReplaceMicrosecond dt0 (n * 10000) =
        .error (.microsecondValueError (n * 10000)) := by
      rw [dtReplaceMicrosecond, if_neg]
      omega
    simp [dtFixup, h1, h2, h3, pyInt, h4, hrep, ebind_ok, ebind_err]
  · intro hn0 hn99
    have hrep : dtReplaceMicrosecond dt0 (n * 10000) =
        .ok { dt0 with microsecond := (n * 10000).toNat } := by
      rw [dtReplaceMicrosecond, if_pos]
      omega
    simp [dtFixup, h1, h2, h3, pyInt, h4, hrep, ebind_ok]

/-- Witness for C8: sub-second value 100 computes microsecond 1000000 and
the fixup fails. -/
theorem pageprops_subsecond_replacement_overflow_witness :
    dtFixup [("DateTimeOriginal", .str "2022:05:01 12:00:00"),
        ("SubsecTimeOriginal", .str "100")] =
      .error (.microsecondValueError 1000000) ∧
    (1000000 : Int) ≤ (100 : Int) * 10000 :=
  ⟨(pageprops_subsecond_replacement_overflow
      [("DateTimeOriginal", .str "2022:05:01 12:00:00"), ("SubsecTimeOriginal", .str "100")]
      "2022:05:01 12:00:00" "100" ⟨2022, 5, 1, 12, 0, 0, 0⟩ 100
      (by decide) (by decide) (by decide) (by decide)).1 (by decide),
   (pageprops_subsecond_replacement_overflow
      [("DateTimeOriginal", .str "2022:05:01 12:00:00"), ("SubsecTimeOriginal", .str "100")]
      "2022:05:01 12:00:00" "100" ⟨2022, 5, 1, 12, 0, 0, 0⟩ 100
      (by decide) (by decide) (by decide) (by decide)).2.2.2 (by decide)⟩

theorem natDigitsFixed_length (d n : Nat) : (natDigitsFixed d n).length = d := by
  induction d generalizing n with
  | zero => rfl
  | succ d ih => simp [natDigitsFixed, ih]

theorem formatFixed_split (d : Nat) (q : ℚ) (hd : d ≠ 0) :
    ∃ pre post : String, formatFixed d q = pre ++ "." ++ post ∧ post.length = d := by
  simp only [formatFixed, hd, if_false, ite_false]
  refine ⟨_, _, (String.append_assoc _ _ _).symm, ?_⟩
  show (String.mk (natDigitsFixed d _)).length = d
  show (natDigitsFixed d _).length = d
  exact natDigitsFixed_length d _

theorem alookup_aset_ne {α : Type} (l : List (String × α)) (k k2 : String) (v : α)
    (h : k2 ≠ k) : alookup (aset l k v) k2 = alookup l k2 := by
  induction l with
  | nil => simp [aset, alookup, Ne.symm h]
  | cons hd tl ih =>
    obtain ⟨k0, v0⟩ := hd
    by_cases h0 : k0 = k
    · subst h0
      simp [aset, alookup, h, Ne.symm h]
    · simp [aset, alookup, h0, ih]

/-- C6: the canonical string of a `WGS84Coords` is latitude, longitude,
altitude joined by commas, with exactly 9 decimal places for latitude and
longitude and exactly 2 for altitude; `(52.5, 13.4, 34.12)` renders exactly
as `52.500000000,13.400000000,34.12`, this exact text is the `Coords` value
of the JSON output, and the serializer rewrites any present `Coords` value
to this string form. -/
theorem coords_canonical_string :
    (∀ c : WGS84Coords, WGS84Coords.str c =
      formatFixed 9 c.lat ++ "," ++ formatFixed 9 c.lon ++ "," ++ formatFixed 2 c.alt) ∧
    (∀ q : ℚ, ∃ pre post : String,
      formatFixed 9 q = pre ++ "." ++ post ∧ post.length = 9) ∧
    (∀ q : ℚ, ∃ pre post : String,
      formatFixed 2 q = pre ++ "." ++ post ∧ post.length = 2) ∧
    ((52.5 : ℚ) = mkRat 525 10 ∧ (13.4 : ℚ) = mkRat 134 10 ∧
      (34.12 : ℚ) = mkRat 3412 100) ∧
    WGS84Coords.str ⟨mkRat 525 10, mkRat 134 10, mkRat 3412 100⟩ =
      "52.500000000,13.400000000,34.12" ∧
    props2json [("Coords", .coords ⟨mkRat 525 10, mkRat 134 10, mkRat 3412 100⟩)] =
      .ok "\x7b\n  \"Coords\": \"52.500000000,13.400000000,34.12\"\n\x7d" ∧
    (∀ (atts : PropMap) (c : WGS84Coords) (atts2 : PropMap),
      alookup atts "Coords" = some (.coords c) →
      props2jsonDict atts = .ok atts2 →
      alookup atts2 "Coords" = some (.str (WGS84Coords.str c))) := by
  refine ⟨fun c => rfl, fun q => formatFixed_split 9 q (by decide),
    fun q => formatFixed_split 2 q (by decide),
    ⟨by norm_num [mkRat_eq_div], by norm_num [mkRat_eq_div], by norm_num [mkRat_eq_div]⟩,
    by decide, by decide, ?_⟩
  · intro atts c atts2 hc h
    simp only [props2jsonDict, ebind_ok] at h
    cases hdto : alookup atts "DateTimeOriginal" with
    | none =>
      rw [hdto] at h
      simp only [ebind_ok] at h
      rw [hc] at h
      cases h
      exact alookup_aset_self _ _ _
    | some v =>
      rw [hdto] at h
      cases v with
      | dt d =>
        simp only [ebind_ok] at h
        rw [alookup_aset_ne atts "DateTimeOriginal" "Coords" _ (by decide)] at h
        rw [hc] at h
        cases h
        exact alookup_aset_self _ _ _
      | str s => simp [ebind_err] at h
      | int n => simp [ebind_err] at h
      | tup ns => simp [ebind_err] at h
      | bytes s => simp [ebind_err] at h
      | coords c2 => simp [ebind_err] at h

/-- Witness for C6: the serializer rewrite applied to the one-entry map. -/
theorem coords_canonical_string_witness :
    alookup [("Coords", PyVal.str "52.500000000,13.400000000,34.12")] "Coords" =
      some (.str (WGS84Coords.str ⟨mkRat 525 10, mkRat 134 10, mkRat 3412 100⟩)) :=
  (coords_canonical_string).2.2.2.2.2.2
    [("Coords", PyVal.coords ⟨mkRat 525 10, mkRat 134 10, mkRat 3412 100⟩)]
    ⟨mkRat 525 10, mkRat 134 10, mkRat 3412 100⟩
    [("Coords", PyVal.str "52.500000000,13.400000000,34.12")]
    (by decide) (by decide)

/-- C7: `props2json` operates on a copy: in the reference-level model every
dict the caller held before the call — in particular the argument map at
index `r` — is unchanged in the store after the call; only the freshly
allocated copy is written. -/
theorem props2json_no_mutation (heap : List PropMap) (r : Nat) (out : List PropMap × String)
    (hr : r < heap.length) (h : props2jsonHeap heap r = .ok out) :
    out.1[r]? = heap[r]? ∧ out.1.take heap.length = heap := by
  simp only [props2jsonHeap] at h
  obtain ⟨atts2, h2, h⟩ := except_bind_ok h
  obtain ⟨txt, h3, h⟩ := except_bind_ok h
  cases h
  constructor
  · simp [List.getElem?_append_left hr]
  · simp [List.take_left]

/-- Witness for C7 on a one-dict store. -/
theorem props2json_no_mutation_witness :
    (([[("A", PyVal.int 1)], [("A", PyVal.int 1)]] : List PropMap)[0]? =
      ([[("A", PyVal.int 1)]] : List PropMap)[0]?) ∧
    ([[("A", PyVal.int 1)], [("A", PyVal.int 1)]] : List PropMap).take 1 =
      [[("A", PyVal.int 1)]] :=
  props2json_no_mutation [[("A", PyVal.int 1)]] 0
    ([[("A", PyVal.int 1)], [("A", PyVal.int 1)]], "\x7b\n  \"A\": 1\n\x7d")
    (by decide) (by decide)

theorem alookup_append_right {α : Type} (l1 l2 : List (String × α)) (k : String)
    (h : k ∉ l1.map Prod.fst) : alookup (l1 ++ l2) k = alookup l2 k := by
  induction l1 with
  | nil => rfl
  | cons hd tl ih =>
    obtain ⟨k0, v0⟩ := hd
    simp only [List.map_cons, List.mem_cons] at h
    push_neg at h
    simp [alookup, Ne.symm h.1, ih h.2]

theorem tagsYields_append_ok (fs : String → Option Xml)
    (l1 l2 : List (String × TagVal)) (ps : List (String × PyVal))
    (h : tagsYields fs (l1 ++ l2) = .ok ps) :
    ∃ a b, tagsYields fs l1 = .ok a ∧ tagsYields fs l2 = .ok b ∧ ps = a ++ b := by
  induction l1 generalizing ps with
  | nil => exact ⟨[], ps, rfl, h, by simp⟩
  | cons t ts ih =>
    simp only [List.cons_append, tagsYields] at h
    obtain ⟨y, hy, h⟩ := except_bind_ok h
    obtain ⟨r, hr, h⟩ := except_bind_ok h
    cases h
    obtain ⟨a, b, ha, hb, rfl⟩ := ih r hr
    exact ⟨y ++ a, b, by simp [tagsYields, hy, ha, ebind_ok], hb, by simp⟩

/-- C9: on a page containing a GPS tag group, the normalizer's output
stream carries the GPS data twice: the group's raw sub-entries are yielded
as individual pairs by the nested-group branch at the group's position in
the tag order, and the synthesized `Coords` pair with the decoded
coordinate is additionally yielded as the final pair of the stream. -/
theorem page_tagconv_gps_twice (fs : String → Option Xml)
    (pre post : List (String × TagVal)) (d : List (String × PyVal))
    (ps : List (String × PyVal))
    (hpre : "GPSTag" ∉ pre.map Prod.fst)
    (hok : page_tagconv_it fs ⟨pre ++ ("GPSTag", .group d) :: post⟩ = .ok ps) :
    ∃ (yaPre yaPost : List (String × PyVal)) (c : WGS84Coords),
      tagsYields fs pre = .ok yaPre ∧
      tagsYields fs post = .ok yaPost ∧
      convert_gpstag "GPSTag" (.group d) = .ok c ∧
      tagYields fs ("GPSTag", .group d) = .ok (d.map decodeGroupEntry) ∧
      ps = yaPre ++ d.map decodeGroupEntry ++ yaPost ++ [("Coords", .coords c)] := by
  have hyieldgps : tagYields fs ("GPSTag", .group d) = .ok (d.map decodeGroupEntry) := by
    simp [tagYields]
  simp only [page_tagconv_it] at hok
  obtain ⟨mk, hmk, hok⟩ := except_bind_ok hok
  obtain ⟨md, hmd, hok⟩ := except_bind_ok hok
  by_cases hid : ¬ tagValEqStr mk "DJI" ∨ ¬ tagValEqStr md "XT2"
  · rw [if_pos hid] at hok
    exact absurd hok (by simp)
  rw [if_neg hid] at hok
  obtain ⟨base, hbase, hok⟩ := except_bind_ok hok
  have hgps : alookup (pre ++ ("GPSTag", TagVal.group d) :: post) "GPSTag" =
      some (.group d) := by
    rw [alookup_append_right pre _ "GPSTag" hpre]
    simp [alookup]
  rw [hgps] at hok
  obtain ⟨c, hc, hok⟩ := except_bind_ok hok
  cases hok
  obtain ⟨a, rest1, ha, hrest, rfl⟩ := tagsYields_append_ok fs pre _ base hbase
  simp only [tagsYields] at hrest
  obtain ⟨y, hy, hrest⟩ := except_bind_ok hrest
  obtain ⟨b, hb, hrest⟩ := except_bind_ok hrest
  cases hrest
  rw [hyieldgps] at hy
  have hyval := (Except.ok.inj hy)
  subst hyval
  exact ⟨a, b, c, ha, hb, hc, hyieldgps, by simp⟩

/-- Witness for C9 on a concrete three-tag page. -/
theorem page_tagconv_gps_twice_witness :
    ∃ (yaPre yaPost : List (String × PyVal)) (c : WGS84Coords),
      tagsYields (fun _ => none)
        [("Make", .val (.str "DJI")), ("Model", .val (.str "XT2"))] = .ok yaPre ∧
      tagsYields (fun _ => none) [] = .ok yaPost ∧
      convert_gpstag "GPSTag"
        (.group (mkGpsDict "WGS-84" [52, 1, 30, 1, 0, 1] "N" [13, 1, 24, 1, 0, 1] "E" 0
          [3412, 100])) = .ok c ∧
      tagYields (fun _ => none) ("GPSTag",
        .group (mkGpsDict "WGS-84" [52, 1, 30, 1, 0, 1] "N" [13, 1, 24, 1, 0, 1] "E" 0
          [3412, 100])) =
        .ok ((mkGpsDict "WGS-84" [52, 1, 30, 1, 0, 1] "N" [13, 1, 24, 1, 0, 1] "E" 0
          [3412, 100]).map decodeGroupEntry) ∧
      ([("Make", PyVal.str "DJI"), ("Model", PyVal.str "XT2"),
        ("GPSLatitudeRef", PyVal.str "N"), ("GPSLatitude", PyVal.tup [52, 1, 30, 1, 0, 1]),
        ("GPSLongitudeRef", PyVal.str "E"), ("GPSLongitude", PyVal.tup [13, 1, 24, 1, 0, 1]),
        ("GPSAltitudeRef", PyVal.int 0), ("GPSAltitude", PyVal.tup [3412, 100]),
        ("GPSMapDatum", PyVal.str "WGS-84"),
        ("Coords", PyVal.coords ⟨mkRat 105 2, mkRat 67 5, mkRat 853 25⟩)] :
          List (String × PyVal)) =
        yaPre ++ (mkGpsDict "WGS-84" [52, 1, 30, 1, 0, 1] "N" [13, 1, 24, 1, 0, 1] "E" 0
          [3412, 100]).map decodeGroupEntry ++ yaPost ++ [("Coords", .coords c)] :=
  page_tagconv_gps_twice (fun _ => none)
    [("Make", .val (.str "DJI")), ("Model", .val (.str "XT2"))] []
    (mkGpsDict "WGS-84" [52, 1, 30, 1, 0, 1] "N" [13, 1, 24, 1, 0, 1] "E" 0 [3412, 100])
    [("Make", PyVal.str "DJI"), ("Model", PyVal.str "XT2"),
     ("GPSLatitudeRef", PyVal.str "N"), ("GPSLatitude", PyVal.tup [52, 1, 30, 1, 0, 1]),
     ("GPSLongitudeRef", PyVal.str "E"), ("GPSLongitude", PyVal.tup [13, 1, 24, 1, 0, 1]),
     ("GPSAltitudeRef", PyVal.int 0), ("GPSAltitude", PyVal.tup [3412, 100]),
     ("GPSMapDatum", PyVal.str "WGS-84"),
     ("Coords", PyVal.coords ⟨mkRat 105 2, mkRat 67 5, mkRat 853 25⟩)]
    (by decide) (by decide)
